import Mathlib

/-!
Verification of the API resilience layer of the pygithub-mcp-server
repository: exception-to-domain-error mapping, singleton client lifecycle,
rate-limit backoff, pagination normalization, and error formatting.

The Python sources are shallowly embedded as executable Lean definitions.
Python strings are `String`, Python ints are `Int`/`Nat`, Python `None` is
`Option.none`, Python exceptions on the modelled paths are `Except`.
Standard-library behaviour that no claim depends on (datetime rendering,
dict repr) is abstracted by simple total rendering functions, clearly
marked below.
-/

namespace PyStr

/-- Python `str.lower()` restricted to ASCII: lower-case every character
(character-wise, like `String.toLower`). -/
def lower (s : String) : String := String.mk (s.toList.map Char.toLower)

/-- Python `needle in haystack` substring test. -/
def containsSub (hay needle : String) : Bool :=
  (List.range (hay.length + 1)).any fun i =>
    needle.toList.isPrefixOf (hay.toList.drop i)

/-- Python truthiness of a string: non-empty. -/
def truthy (s : String) : Bool := !s.isEmpty

/-- Python truthiness of an optional string: present and non-empty. -/
def optTruthy : Option String → Bool
  | none => false
  | some s => truthy s

/-- Python `str.title()`: upper-cases the first character of each
alphabetic run, lower-cases the rest. -/
def titleGo : Bool → List Char → List Char
  | _, [] => []
  | prevAlpha, c :: cs =>
    let c' := if c.isAlpha then (if prevAlpha then c.toLower else c.toUpper) else c
    c' :: titleGo c.isAlpha cs

/-- Python `str.title()`. -/
def title (s : String) : String := String.mk (titleGo false s.toList)

/-- Decimal value of a digit list (to be applied only to digits). -/
def digitsVal (l : List Char) : Nat :=
  l.foldl (fun acc c => 10 * acc + (c.toNat - 48)) 0

/-- Python `int(s)`: parse a (possibly negated) non-empty decimal string,
raising `ValueError` (here: `none`) on anything else.  This matches Python
`int()` on every input the claims exercise. -/
def pyInt (s : String) : Option Int :=
  match s.toList with
  | [] => none
  | '-' :: rest =>
    if rest ≠ [] ∧ rest.all Char.isDigit then some (-(digitsVal rest : Int))
    else none
  | l => if l.all Char.isDigit then some (digitsVal l : Int) else none

end PyStr

/-- Python exception classes that can be raised inside the modelled code. -/
inductive PyExn where
  | attributeError
  | valueError
  | typeError
  deriving DecidableEq, Repr

/-- Abstraction of `datetime.strftime('%Y-%m-%d %H:%M:%S UTC')` applied to
`datetime.fromtimestamp(t)`: a total rendering of the epoch timestamp.  No
claim depends on the rendered digits, only on the surrounding message. -/
def strftimeUTC (t : Int) : String := toString t ++ " UTC"

/-- Abstraction of `datetime.isoformat()` applied to the timestamp `t`: a
total rendering.  No claim depends on the rendered digits. -/
def isoformat (t : Int) : String := "ts:" ++ toString t

/-- One entry of the structured `data["errors"]` list of a 422 response. -/
structure ErrorItem where
  field : Option String
  code : Option String
  message : Option String
  deriving DecidableEq, Repr

/-- The keys of a GitHub error-response dict that the code reads.
`message` and `resource` model `data.get("message")` / `data["resource"]`;
`errors` models the 422 field-error list. -/
structure ExcData where
  message : Option String
  resource : Option String
  errors : List ErrorItem
  deriving DecidableEq, Repr

/-- Python truthiness of the dict: at least one key present. -/
def ExcData.isEmptyDict (d : ExcData) : Bool :=
  d.message.isNone && d.resource.isNone && d.errors.isEmpty

/-- Abstraction of Python `str(dict)` for the response data: a total
rendering.  No claim depends on the rendered text. -/
def pyReprData (d : ExcData) : String := toString (repr d)

/-- Result of `json.loads` on a string payload: a JSON object, a truthy
non-object (e.g. `"5"`), a falsy non-object (e.g. `"null"`, `"0"`), or a
parse failure. -/
inductive JsonParse where
  | obj (d : ExcData)
  | nonObjTruthy
  | nonObjFalsy
  | failed
  deriving DecidableEq, Repr

/-- The `.data` attribute of a `GithubException`: absent, a string (with
its `json.loads` outcome), or a dict. -/
inductive ExcPayload where
  | absent
  | jsonStr (parsed : JsonParse) (raw : String)
  | dict (d : ExcData)
  deriving DecidableEq, Repr

/-- The `rate` attribute of a `RateLimitExceededException`. -/
structure RateInfo where
  reset : Option Int
  remaining : Nat
  limit : Option Nat
  deriving DecidableEq, Repr

/-- A PyGithub `GithubException` as read by the handler: HTTP status,
payload, response headers, `str(error)`, whether the object is a
`RateLimitExceededException`, and its `rate` attribute if so. -/
structure GithubExc where
  status : Nat
  data : ExcPayload
  headers : List (String × String)
  strRep : String
  isRateLimitExc : Bool
  rate : Option RateInfo
  deriving DecidableEq, Repr

/-- `headers.get(k)`: first value bound to `k`. -/
def headerGet (hs : List (String × String)) (k : String) : Option String :=
  (hs.find? (fun p => p.1 == k)).map Prod.snd

/-- The error kinds of the taxonomy: `GitHubError` (base/Unknown) and its
subclasses in `errors/exceptions.py` (mirrored by
`archive/github/common/errors.py`). -/
inductive ErrKind where
  | base
  | validation
  | notFound
  | auth
  | permission
  | rateLimit
  | conflict
  deriving DecidableEq, Repr

/-- The dynamically-typed `reset_at` attribute of a rate-limit error: the
handler stores `None`, a `datetime`, or the raw header string. -/
inductive PyVal where
  | none
  | dt (t : Int)
  | str (s : String)
  deriving DecidableEq, Repr

/-- A constructed `GitHubError` value: its (most derived) class, message,
`response` data, and — for `GitHubRateLimitError` — the stored `reset_at`.
Non-rate-limit constructors leave `reset_at` as `PyVal.none` (the Python
classes do not define the attribute at all). -/
structure GitHubErrorVal where
  kind : ErrKind
  message : String
  response : Option ExcData
  reset_at : PyVal
  deriving DecidableEq, Repr

/-- `errors/handlers.py` lines 61-68: read `error.data`, and for string
payloads retry as JSON, falling back to `{"message": data}`.  Normalised to
`none` when the resulting dict is falsy (absent or empty).  A truthy
non-object JSON payload makes the later `data.get("message")` raise
`AttributeError`; a falsy one behaves like an absent payload. -/
def normalizeData : ExcPayload → Except PyExn (Option ExcData)
  | .absent => .ok none
  | .dict d => .ok (if d.isEmptyDict then none else some d)
  | .jsonStr (.obj d) _ => .ok (if d.isEmptyDict then none else some d)
  | .jsonStr .nonObjTruthy _ => .error .attributeError
  | .jsonStr .nonObjFalsy _ => .ok none
  | .jsonStr .failed raw => .ok (some ⟨some raw, none, []⟩)

/-- `errors/handlers.py` line 73: `data.get("message", str(error)) if data
else str(error)`. -/
def errorMsgOf (data : Option ExcData) (strRep : String) : String :=
  match data with
  | some d => d.message.getD strRep
  | none => strRep

/-- `errors/handlers.py` lines 80-87: keyword search over the lowered
message, checking "issue", "repository", "comment", "label" in order. -/
def kwSearch (msg : String) : Option String :=
  let l := PyStr.lower msg
  if PyStr.containsSub l "issue" then some "issue"
  else if PyStr.containsSub l "repository" then some "repository"
  else if PyStr.containsSub l "comment" then some "comment"
  else if PyStr.containsSub l "label" then some "label"
  else none

/-- `errors/handlers.py` lines 75-87: resolve the resource type.  A truthy
caller hint wins; else a present `data["resource"]` key (on a truthy dict);
else the keyword search. -/
def resolveResource (hint : Option String) (data : Option ExcData)
    (errorMsg : String) : Option String :=
  if PyStr.optTruthy hint then hint
  else
    match data with
    | some d => if d.resource.isSome then d.resource else kwSearch errorMsg
    | none => kwSearch errorMsg

/-- `errors/handlers.py` lines 110-115: the NotFound message. -/
def notFoundMsg (resourceType : Option String) : String :=
  match resourceType with
  | some r => if r.isEmpty then "Not Found" else PyStr.title r ++ " not found"
  | none => "Not Found"

/-- The body of `handle_github_exception` (`errors/handlers.py` lines
38-121), with every Python raise-point on the modelled paths surfaced as
`Except.error`: the rate-limit branch for `RateLimitExceededException`,
then payload normalisation, message extraction, resource resolution, and
the status dispatch.  `int(reset_time)` on a non-numeric truthy header
raises `ValueError`. -/
def handleGithubExceptionBody (e : GithubExc) (resourceHint : Option String) :
    Except PyExn GitHubErrorVal :=
  if e.isRateLimitExc then
    let reset : Option Int := (e.rate.bind RateInfo.reset)
    let remaining : Nat := (e.rate.map RateInfo.remaining).getD 0
    let lim : Option Nat := e.rate.bind RateInfo.limit
    let limStr : String := match lim with | some n => toString n | none => "None"
    let msg := "API rate limit exceeded (" ++ toString remaining ++ "/" ++
      limStr ++ " calls remaining)"
    let msg := match reset with
      | some t => msg ++ ". Reset at " ++ strftimeUTC t
      | none => msg
    let resetVal : PyVal := match reset with
      | some t => PyVal.dt t
      | none => PyVal.none
    .ok ⟨.rateLimit, msg, none, resetVal⟩
  else
    match normalizeData e.data with
    | .error ex => .error ex
    | .ok data =>
      let errorMsg := errorMsgOf data e.strRep
      let resourceType := resolveResource resourceHint data errorMsg
      if e.status == 401 then
        .ok ⟨.auth, "Authentication failed. Please verify your GitHub token.",
          data, PyVal.none⟩
      else if e.status == 403 then
        if PyStr.containsSub (PyStr.lower errorMsg) "rate limit" then
          match headerGet e.headers "X-RateLimit-Reset" with
          | none => .ok ⟨.rateLimit, "API rate limit exceeded", data, PyVal.none⟩
          | some s =>
            if s.isEmpty then
              .ok ⟨.rateLimit, "API rate limit exceeded", data, PyVal.str s⟩
            else
              match PyStr.pyInt s with
              | none => .error .valueError
              | some t =>
                .ok ⟨.rateLimit,
                  "API rate limit exceeded. Reset at " ++ strftimeUTC t,
                  data, PyVal.str s⟩
        else
          .ok ⟨.permission,
            "Permission denied: Resource not accessible by integration",
            data, PyVal.none⟩
      else if e.status == 404 then
        .ok ⟨.notFound, notFoundMsg resourceType, data, PyVal.none⟩
      else if e.status == 422 then
        .ok ⟨.validation, errorMsg, data, PyVal.none⟩
      else
        .ok ⟨.base, "GitHub API Error (" ++ toString e.status ++ "): " ++
          errorMsg, data, PyVal.none⟩

/-- `handle_github_exception` (`errors/handlers.py` lines 26-124): the body
wrapped in the outer `try`/`except Exception` which converts any internal
failure to `GitHubError(str(error), None)`. -/
def handle_github_exception (e : GithubExc) (resourceHint : Option String) :
    GitHubErrorVal :=
  match handleGithubExceptionBody e resourceHint with
  | .ok g => g
  | .error _ => ⟨.base, e.strRep, none, PyVal.none⟩

/-- PyGithub `PaginatedList.get_page(idx)` over the already-fetched item
sequence: the 30-item slice starting at `idx * 30`.  30 is the PyGithub
`Requester` default page size; `repository.get_issues(state=state)` and
`issue.get_comments(**kwargs)` in `operations/issues.py` never override it
(the repository's own fixture `mock_paginated_full` in
`tests/test_operations/test_issues.py` encodes the same 30-item blocks).
A negative index is unreachable after validation and is not exercised by
any claim; it is modelled as the empty slice. -/
def get_page {α : Type} (items : List α) (idx : Int) : List α :=
  if idx < 0 then [] else (items.drop (idx.toNat * 30)).take 30

/-- `operations/issues.py` `list_issues` (lines 202-277), over the already
fetched lazy sequence `items`: the state/sort/direction validations (lines
204-217), the page/per_page validations (lines 219-228), then the
pagination window (lines 260-270).  The network fetch itself and the
per-item schema conversion are elided; the `labels` type checks (lines
231-235) always pass for the typed `Option (List String)` argument.
Error messages reproduce the source up to the Python `set` repr, which is
abstracted away. -/
def list_issues {α : Type} (items : List α) (state : Option String)
    (labels : Option (List String)) (sort : Option String)
    (direction : Option String) (page : Option Int) (per_page : Option Int) :
    Except GitHubErrorVal (List α) :=
  let state := state.getD "open"
  if !(["open", "closed", "all"].contains state) then
    .error ⟨.base, "Invalid state: " ++ state, none, PyVal.none⟩
  else if sort.any (fun s => !(["created", "updated", "comments"].contains s)) then
    .error ⟨.base, "Invalid sort: " ++ sort.getD "", none, PyVal.none⟩
  else if direction.any (fun d => !(["asc", "desc"].contains d)) then
    .error ⟨.base, "Invalid direction: " ++ direction.getD "", none, PyVal.none⟩
  else if page.any (fun p => p < 1) then
    .error ⟨.base, "Invalid page number. Must be a positive integer.",
      none, PyVal.none⟩
  else if per_page.any (fun pp => pp < 1) then
    .error ⟨.base, "Invalid per_page value. Must be a positive integer.",
      none, PyVal.none⟩
  else if per_page.any (fun pp => pp > 100) then
    .error ⟨.base, "per_page cannot exceed 100", none, PyVal.none⟩
  else
    let _ := labels
    match page with
    | some p => .ok (get_page items (p - 1))
    | none =>
      match per_page with
      | some pp => .ok (items.take pp.toNat)
      | none => .ok items

/-- `operations/issues.py` `list_issue_comments` (lines 340-362), over the
already fetched comment sequence: no page/per_page validation at all, just
the pagination window of lines 353-359. -/
def list_issue_comments {α : Type} (items : List α) (page : Option Int)
    (per_page : Option Int) : Except GitHubErrorVal (List α) :=
  match page with
  | some p => .ok (get_page items (p - 1))
  | none =>
    match per_page with
    | some pp => .ok (items.take pp.toNat)
    | none => .ok items

/-- The failure raised when the retry budget is exhausted. -/
inductive RetryErr where
  | retryLimitExceeded (msg : String)
  deriving DecidableEq, Repr

/-- Modelled from the spec: `backoff_delay` / `exponential_backoff` lives in
`pygithub_mcp_server/client/rate_limit.py`, which is absent from the
sources (only `tests/integration/client/test_rate_limit.py` imports it).
Spec §4.3: `delay = base_delay × 2^attempt`; deterministic mode returns the
exact value, otherwise the supplied `jitter` is added; attempts at or past
`max_attempts` fail with RetryLimitExceeded (the test expects a message
containing "Maximum retry attempts").  Delays are exact rationals. -/
def exponential_backoff (attempt : Nat) (max_attempts : Nat := 5)
    (base_delay : ℚ := 2) (deterministic : Bool := false) (jitter : ℚ := 0) :
    Except RetryErr ℚ :=
  if attempt ≥ max_attempts then
    .error (.retryLimitExceeded "Maximum retry attempts exceeded")
  else
    .ok (base_delay * 2 ^ attempt + (if deterministic then 0 else jitter))

/-- Modelled from the spec: `wait_until_reset` / `wait_for_rate_limit_reset`
lives in the absent `client/rate_limit.py`.  Spec §4.3: blocks until
`max(now, reset_at) + buffer_seconds`; the value returned here is the
wake-up time, and the function is total (no failure mode). -/
def wait_for_rate_limit_reset (now reset_at : Int) (buffer_seconds : Int) :
    Int :=
  max now reset_at + buffer_seconds

/-- Modelled from the spec: `handle_with_backoff` /
`handle_rate_limit_with_backoff` lives in the absent
`client/rate_limit.py`.  Spec §4.3: at or past `max_attempts` the original
error is re-raised unchanged; otherwise the computed backoff delay is slept
and the call returns, signalling "retry now".  The sleep is represented by
the returned delay.  Test mode: the integration test
(`tests/integration/client/test_rate_limit.py` lines 101-127) pins a base
delay of 0.1 in test mode with delays still growing per attempt, so test
mode is modelled as `base_delay = 1/10` fed to the same exponential. -/
def handle_rate_limit_with_backoff {ε : Type} (error : ε) (attempt : Nat)
    (max_attempts : Nat := 5) (deterministic : Bool := false)
    (test_mode : Bool := false) (jitter : ℚ := 0) : Except ε ℚ :=
  if attempt ≥ max_attempts then
    .error error
  else
    let base : ℚ := if test_mode then 1 / 10 else 2
    match exponential_backoff attempt max_attempts base deterministic jitter with
    | .ok d => .ok d
    | .error _ => .ok 0

/-- The per-kind message prefix of `format_github_error`
(`archive/github/common/errors.py` lines 81-96). -/
def kindLabel : ErrKind → String
  | .base => "GitHub API Error"
  | .validation => "Validation Error"
  | .notFound => "Not Found"
  | .auth => "Authentication Failed"
  | .permission => "Permission Denied"
  | .rateLimit => "Rate Limit Exceeded"
  | .conflict => "Conflict"

/-- `format_github_error` (`archive/github/common/errors.py` lines 72-98):
"<Kind>: <message>", appending "Details: <response>" for a validation error
with truthy response data and "Resets at: <reset_at.isoformat()>" for a
rate-limit error.  `reset_at.isoformat()` raises `AttributeError` when the
stored `reset_at` is `None` or a string rather than a `datetime`. -/
def format_github_error (e : GitHubErrorVal) : Except PyExn String :=
  match e.kind with
  | .validation =>
    let msg := "Validation Error: " ++ e.message
    match e.response with
    | some d => .ok (msg ++ "\nDetails: " ++ pyReprData d)
    | none => .ok msg
  | .notFound => .ok ("Not Found: " ++ e.message)
  | .auth => .ok ("Authentication Failed: " ++ e.message)
  | .permission => .ok ("Permission Denied: " ++ e.message)
  | .rateLimit =>
    match e.reset_at with
    | .dt t => .ok ("Rate Limit Exceeded: " ++ e.message ++ "\nResets at: " ++
        isoformat t)
    | _ => .error .attributeError
  | .conflict => .ok ("Conflict: " ++ e.message)
  | .base => .ok ("GitHub API Error: " ++ e.message)


/-! ## Helper lemmas -/

/-- A page slice starting at or past the end of the sequence is empty. -/
theorem get_page_eq_nil {α : Type} (items : List α) (i : Int)
    (h : items.length ≤ i.toNat * 30) : get_page items i = [] := by
  unfold get_page
  split
  · rfl
  · rw [List.drop_eq_nil_of_le h, List.take_nil]

/-! ## Claim theorems -/

/-- C9: `handle_github_exception` is total on its error path: for every
input exception and optional resource hint it returns a `GitHubError`
value; either the mapping body succeeds and its value is returned, or the
internal failure is caught and converted to a base `GitHubError` carrying
the original exception's string representation. -/
theorem handle_github_exception_total (e : GithubExc) (hint : Option String) :
    handleGithubExceptionBody e hint = .ok (handle_github_exception e hint) ∨
    ((∃ ex, handleGithubExceptionBody e hint = .error ex) ∧
      handle_github_exception e hint = ⟨.base, e.strRep, none, PyVal.none⟩) := by
  unfold handle_github_exception
  cases h : handleGithubExceptionBody e hint with
  | ok g => exact Or.inl rfl
  | error ex => exact Or.inr ⟨⟨ex, rfl⟩, rfl⟩

/-- C3: in deterministic mode with base delay 2.0, `exponential_backoff`
returns exactly `2.0 * 2^n` for every attempt `n < max_attempts` (so 2.0,
4.0, 8.0 for n = 0, 1, 2), successive delays are strictly increasing, and
any attempt at or past `max_attempts` fails with RetryLimitExceeded instead
of returning a delay. -/
theorem exponential_backoff_deterministic (n max_attempts : Nat) :
    (n < max_attempts →
      exponential_backoff n max_attempts 2 true 0 = .ok (2 * 2 ^ n)) ∧
    exponential_backoff 0 3 2 true 0 = .ok 2 ∧
    exponential_backoff 1 3 2 true 0 = .ok 4 ∧
    exponential_backoff 2 3 2 true 0 = .ok 8 ∧
    (n + 1 < max_attempts → ∀ d d' : ℚ,
      exponential_backoff n max_attempts 2 true 0 = .ok d →
      exponential_backoff (n + 1) max_attempts 2 true 0 = .ok d' → d < d') ∧
    (max_attempts ≤ n →
      exponential_backoff n max_attempts 2 true 0 =
        .error (.retryLimitExceeded "Maximum retry attempts exceeded")) := by
  have hok : ∀ m k : Nat, m < k →
      exponential_backoff m k 2 true 0 = .ok (2 * 2 ^ m) := by
    intro m k hmk
    unfold exponential_backoff
    rw [if_neg (by omega)]
    simp
  refine ⟨fun h => hok n max_attempts h,
    by rw [hok 0 3 (by omega)]; norm_num,
    by rw [hok 1 3 (by omega)]; norm_num,
    by rw [hok 2 3 (by omega)]; norm_num, ?_, ?_⟩
  · intro h d d' hd hd'
    rw [hok n max_attempts (by omega)] at hd
    rw [hok (n + 1) max_attempts h] at hd'
    cases hd
    cases hd'
    have : (2 : ℚ) ^ n < 2 ^ (n + 1) :=
      pow_lt_pow_right₀ (by norm_num) (by omega)
    linarith
  · intro h
    unfold exponential_backoff
    rw [if_pos (by omega)]

/-- C3 witness: at attempt 1 with max_attempts 3 the deterministic delay is
exactly 4.0, and attempt 3 fails with RetryLimitExceeded. -/
theorem exponential_backoff_deterministic_witness :
    (1 < 3 ∧ exponential_backoff 1 3 2 true 0 = .ok (2 * 2 ^ 1)) ∧
    (3 ≤ 3 ∧ exponential_backoff 3 3 2 true 0 =
      .error (.retryLimitExceeded "Maximum retry attempts exceeded")) :=
  ⟨⟨by decide, (exponential_backoff_deterministic 1 3).1 (by decide)⟩,
   ⟨by decide, (exponential_backoff_deterministic 3 3).2.2.2.2.2 (by decide)⟩⟩

/-- C5 counterexample: the test-mode delay is not a fixed delay — at
attempts 1 and 2 (max_attempts 3, deterministic, test mode) the returned
sleep durations are 0.2 and 0.4 seconds respectively, so the delay grows
with the attempt instead of being constant. -/
theorem handle_backoff_test_mode_not_fixed :
    handle_rate_limit_with_backoff "rate limit" 1 3 true true 0 =
      .ok ((1 : ℚ)/5) ∧
    handle_rate_limit_with_backoff "rate limit" 2 3 true true 0 =
      .ok ((2 : ℚ)/5) ∧
    ((1 : ℚ)/5 ≠ (2 : ℚ)/5) := by
  refine ⟨?_, ?_, by norm_num⟩ <;>
    norm_num [handle_rate_limit_with_backoff, exponential_backoff]

/-- C5 (amended): if attempt ≥ max_attempts, `handle_rate_limit_with_backoff`
re-raises the original triggering error itself, unchanged; if attempt <
max_attempts it sleeps for the computed backoff delay — in test mode
computed from the reduced base delay 0.1 so automated tests stay fast, and
still growing strictly with the attempt — and then returns normally,
signaling that the caller should retry. -/
theorem handle_backoff_amended {ε : Type} (e : ε) (attempt max_attempts : Nat)
    (det tm : Bool) :
    (max_attempts ≤ attempt →
      handle_rate_limit_with_backoff e attempt max_attempts det tm 0 =
        .error e) ∧
    (attempt < max_attempts →
      handle_rate_limit_with_backoff e attempt max_attempts det tm 0 =
        .ok ((if tm then (1 : ℚ)/10 else 2) * 2 ^ attempt)) ∧
    (attempt + 1 < max_attempts → ∀ d d' : ℚ,
      handle_rate_limit_with_backoff e attempt max_attempts det tm 0 = .ok d →
      handle_rate_limit_with_backoff e (attempt + 1) max_attempts det tm 0 =
        .ok d' → d < d') := by
  have hok : ∀ m : Nat, m < max_attempts →
      handle_rate_limit_with_backoff e m max_attempts det tm 0 =
        .ok ((if tm then (1 : ℚ)/10 else 2) * 2 ^ m) := by
    intro m hm
    have h1 : ¬ (m ≥ max_attempts) := by omega
    simp only [handle_rate_limit_with_backoff, exponential_backoff, if_neg h1]
    cases det <;> simp
  refine ⟨?_, fun h => hok attempt h, ?_⟩
  · intro h
    unfold handle_rate_limit_with_backoff
    rw [if_pos (by omega)]
  · intro h d d' hd hd'
    rw [hok attempt (by omega)] at hd
    rw [hok (attempt + 1) h] at hd'
    cases hd
    cases hd'
    have hpow : (2 : ℚ) ^ attempt < 2 ^ (attempt + 1) :=
      pow_lt_pow_right₀ (by norm_num) (by omega)
    have hbase : (0 : ℚ) < (if tm then (1 : ℚ)/10 else 2) := by
      cases tm <;> norm_num
    exact mul_lt_mul_of_pos_left hpow hbase

/-- C5 witness: at attempt 3 with max_attempts 3 the original error value
"quota" is re-raised unchanged, and at attempt 0 a delay is returned. -/
theorem handle_backoff_amended_witness :
    (3 ≤ 3 ∧
      handle_rate_limit_with_backoff "quota" 3 3 true false 0 =
        .error "quota") ∧
    (0 < 3 ∧
      handle_rate_limit_with_backoff "quota" 0 3 true false 0 =
        .ok ((if false then (1 : ℚ)/10 else 2) * 2 ^ 0)) :=
  ⟨⟨by decide, (handle_backoff_amended "quota" 3 3 true false).1 (by decide)⟩,
   ⟨by decide, (handle_backoff_amended "quota" 0 3 true false).2.1 (by decide)⟩⟩

/-- C2 counterexample: over a 12-item sequence, the window with page=2 and
per_page=5 returns the empty list — the 30-item block 1 of the library's
fixed page size — not items[5:10]. -/
theorem pagination_window_page2_counterexample :
    list_issues (List.range 12) none none none none (some 2) (some 5) =
      .ok [] ∧
    ((List.range 12).drop 5).take 5 ≠ [] := by
  constructor
  · rfl
  · decide

/-- C2 (amended): when page is given (and the parameters pass validation),
the window returns the (page−1)-indexed block of the PyGithub default page
size 30 — per_page does not influence the block — and a page lying beyond
the available data returns an empty sequence rather than an error; over a
12-item sequence, pages 2, 3 and 4 therefore all return `[]`. -/
theorem pagination_window_amended {α : Type} (items : List α) (p : Int)
    (pp : Option Int) (hp : 1 ≤ p)
    (hpp : ∀ v, pp = some v → 1 ≤ v ∧ v ≤ 100) :
    list_issues items none none none none (some p) pp =
      .ok (get_page items (p - 1)) ∧
    (items.length ≤ (p - 1).toNat * 30 →
      list_issues items none none none none (some p) pp = .ok []) := by
  have hmain : list_issues items none none none none (some p) pp =
      .ok (get_page items (p - 1)) := by
    unfold list_issues
    cases pp with
    | none =>
      simp [Option.any, show ¬(p < 1) by omega]
    | some v =>
      obtain ⟨hv1, hv2⟩ := hpp v rfl
      simp [Option.any, show ¬(p < 1) by omega, show ¬(v < 1) by omega,
        show ¬(v > 100) by omega]
  refine ⟨hmain, fun hlen => ?_⟩
  rw [hmain, get_page_eq_nil items (p - 1) hlen]

/-- C2 witness: over the 12-item sequence `List.range 12`, page 2 with
per_page 5 returns the empty block. -/
theorem pagination_window_amended_witness :
    (1 ≤ (2 : Int) ∧ (∀ v : Int, (some (5 : Int)) = some v → 1 ≤ v ∧ v ≤ 100)) ∧
    list_issues (List.range 12) none none none none (some 2) (some 5) =
      .ok (get_page (List.range 12) (2 - 1)) :=
  ⟨⟨by decide, by intro v hv; cases hv; exact ⟨by decide, by decide⟩⟩,
   (pagination_window_amended (List.range 12) 2 (some 5) (by decide)
     (by intro v hv; cases hv; exact ⟨by decide, by decide⟩)).1⟩

/-- C6 counterexample: `list_issue_comments` performs no pagination
validation: a call with per_page=101 over a 12-item comment sequence
succeeds and returns all 12 items instead of failing with an
InvalidParameter error. -/
theorem list_issue_comments_no_validation :
    list_issue_comments (List.range 12) none (some 101) =
      .ok (List.range 12) := by
  rfl

/-- C6 (amended): `list_issues` validates pagination before any items are
fetched — per_page=101 (and any value outside [1,100]) fails with an
InvalidParameter error while per_page=100 succeeds, and a non-positive page
fails with an InvalidParameter error whatever per_page holds — but
`list_issue_comments` performs no such validation and accepts any
per_page. -/
theorem list_pagination_validation_amended {α : Type} (items : List α)
    (p pp : Int) :
    list_issues items none none none none none (some 101) =
      .error ⟨.base, "per_page cannot exceed 100", none, PyVal.none⟩ ∧
    list_issues items none none none none none (some 100) =
      .ok (items.take 100) ∧
    (pp < 1 ∨ pp > 100 →
      ∃ msg, list_issues items none none none none none (some pp) =
        .error ⟨.base, msg, none, PyVal.none⟩) ∧
    (p < 1 → ∀ pp2 : Option Int,
      list_issues items none none none none (some p) pp2 =
        .error ⟨.base, "Invalid page number. Must be a positive integer.",
          none, PyVal.none⟩) ∧
    list_issue_comments items none (some pp) = .ok (items.take pp.toNat) := by
  refine ⟨?_, ?_, ?_, ?_, rfl⟩
  · simp [list_issues, Option.any]
  · simp [list_issues, Option.any]
  · intro hpp
    rcases hpp with h | h
    · exact ⟨"Invalid per_page value. Must be a positive integer.",
        by simp [list_issues, Option.any, h]⟩
    · refine ⟨"per_page cannot exceed 100", ?_⟩
      simp [list_issues, Option.any, show ¬(pp < 1) by omega, h]
  · intro hp pp2
    simp [list_issues, Option.any, hp]

/-- C6 witness: per_page=0 is outside [1,100] and rejected by
`list_issues`, and page=0 is rejected whatever per_page holds. -/
theorem list_pagination_validation_amended_witness :
    ((0 : Int) < 1 ∨ (0 : Int) > 100) ∧
    (∃ msg, list_issues (List.range 3) none none none none none (some 0) =
      .error ⟨.base, msg, none, PyVal.none⟩) ∧
    ((0 : Int) < 1) ∧
    list_issues (List.range 3) none none none none (some 0) (some 5) =
      .error ⟨.base, "Invalid page number. Must be a positive integer.",
        none, PyVal.none⟩ :=
  ⟨Or.inl (by decide),
   (list_pagination_validation_amended (List.range 3) 0 0).2.2.1
     (Or.inl (by decide)),
   by decide,
   (list_pagination_validation_amended (List.range 3) 0 0).2.2.2.1
     (by decide) (some 5)⟩

/-- C7: the resource hint for the NotFound message resolves with this
precedence: a (truthy) explicit caller-supplied hint wins; otherwise the
structured body's "resource" key; otherwise the keyword search over the
lowercased message checking "issue", "repository", "comment", "label" in
that order; and mapping a 404 with resource_hint="issue" and no body yields
the message "Issue not found". -/
theorem resource_hint_precedence (hint : Option String) (data : Option ExcData)
    (msg : String) :
    (PyStr.optTruthy hint = true → resolveResource hint data msg = hint) ∧
    (PyStr.optTruthy hint = false → ∀ d, data = some d →
      (d.resource).isSome = true → resolveResource hint data msg = d.resource) ∧
    (PyStr.optTruthy hint = false →
      (data = none ∨ ∃ d, data = some d ∧ d.resource = none) →
      resolveResource hint data msg = kwSearch msg) ∧
    (PyStr.containsSub (PyStr.lower msg) "issue" = true →
      kwSearch msg = some "issue") ∧
    (PyStr.containsSub (PyStr.lower msg) "issue" = false →
      PyStr.containsSub (PyStr.lower msg) "repository" = true →
      kwSearch msg = some "repository") ∧
    (PyStr.containsSub (PyStr.lower msg) "issue" = false →
      PyStr.containsSub (PyStr.lower msg) "repository" = false →
      PyStr.containsSub (PyStr.lower msg) "comment" = true →
      kwSearch msg = some "comment") ∧
    (PyStr.containsSub (PyStr.lower msg) "issue" = false →
      PyStr.containsSub (PyStr.lower msg) "repository" = false →
      PyStr.containsSub (PyStr.lower msg) "comment" = false →
      PyStr.containsSub (PyStr.lower msg) "label" = true →
      kwSearch msg = some "label") ∧
    (handle_github_exception ⟨404, .absent, [], "err", false, none⟩
      (some "issue")).message = "Issue not found" := by
  refine ⟨?_, ?_, ?_, ?_, ?_, ?_, ?_, rfl⟩
  · intro ht
    simp [resolveResource, ht]
  · intro ht d hd hres
    simp [resolveResource, ht, hd, hres]
  · intro ht hdata
    rcases hdata with h | ⟨d, hd, hres⟩
    · simp [resolveResource, ht, h]
    · simp [resolveResource, ht, hd, hres]
  · intro h1
    simp [kwSearch, h1]
  · intro h1 h2
    simp [kwSearch, h1, h2]
  · intro h1 h2 h3
    simp [kwSearch, h1, h2, h3]
  · intro h1 h2 h3 h4
    simp [kwSearch, h1, h2, h3, h4]

/-- C7 witness: an explicit hint "issue" wins over a body whose resource
key says "label", and the concrete 404 mapping with hint "issue" and no
body produces the message "Issue not found". -/
theorem resource_hint_precedence_witness :
    PyStr.optTruthy (some "issue") = true ∧
    resolveResource (some "issue") (some ⟨some "m", some "label", []⟩) "x" =
      some "issue" :=
  ⟨by decide,
   (resource_hint_precedence (some "issue")
     (some ⟨some "m", some "label", []⟩) "x").1 (by decide)⟩

/-- C8 counterexample: `format_github_error` applied to a rate-limit error
whose reset_at is null raises AttributeError (from
`error.reset_at.isoformat()`), so it does not return a string for every
DomainError. -/
theorem format_github_error_raises_on_null_reset :
    format_github_error ⟨.rateLimit, "Rate limit exceeded", none, PyVal.none⟩ =
      .error .attributeError := rfl

/-- C8 (amended): for every DomainError whose reset_at is a datetime
whenever the kind is RateLimit, `format_github_error` returns — without
raising — a string of the shape "<Kind>: <message>", appending the details
of the response data for a Validation error carrying one and the
ISO-formatted reset time for a RateLimit error; on a RateLimit error with
a null (or string-valued) reset_at it instead raises AttributeError. -/
theorem format_github_error_amended (e : GitHubErrorVal)
    (h : e.kind = .rateLimit → ∃ t, e.reset_at = PyVal.dt t) :
    ∃ tail, format_github_error e =
      .ok (kindLabel e.kind ++ ": " ++ e.message ++ tail) ∧
    (e.kind = .validation →
      tail = (match e.response with
        | some d => "\nDetails: " ++ pyReprData d
        | none => "")) ∧
    (∀ t, e.kind = .rateLimit → e.reset_at = PyVal.dt t →
      tail = "\nResets at: " ++ isoformat t) ∧
    ((e.kind = .base ∨ e.kind = .notFound ∨ e.kind = .auth ∨
      e.kind = .permission ∨ e.kind = .conflict) → tail = "") := by
  obtain ⟨kind, message, response, reset_at⟩ := e
  cases kind with
  | validation =>
    refine ⟨(match response with
      | some d => "\nDetails: " ++ pyReprData d
      | none => ""), ?_, by intro hv; cases response <;> rfl, by simp, by simp⟩
    cases response with
    | none =>
      simp only [format_github_error, kindLabel]
      rw [String.append_empty]
      congr 2
    | some d =>
      simp only [format_github_error, kindLabel]
      rw [← String.append_assoc]
      congr 3
  | rateLimit =>
    obtain ⟨t, ht⟩ := h rfl
    subst ht
    refine ⟨"\nResets at: " ++ isoformat t, ?_, by simp, ?_, by simp⟩
    · simp only [format_github_error, kindLabel]
      rw [← String.append_assoc]
      congr 3
    · intro t' _ ht'
      cases ht'
      rfl
  | base =>
    refine ⟨"", ?_, by simp, by simp, fun _ => rfl⟩
    simp only [format_github_error, kindLabel]
    rw [String.append_empty]
    congr 2
  | notFound =>
    refine ⟨"", ?_, by simp, by simp, fun _ => rfl⟩
    simp only [format_github_error, kindLabel]
    rw [String.append_empty]
    congr 2
  | auth =>
    refine ⟨"", ?_, by simp, by simp, fun _ => rfl⟩
    simp only [format_github_error, kindLabel]
    rw [String.append_empty]
    congr 2
  | permission =>
    refine ⟨"", ?_, by simp, by simp, fun _ => rfl⟩
    simp only [format_github_error, kindLabel]
    rw [String.append_empty]
    congr 2
  | conflict =>
    refine ⟨"", ?_, by simp, by simp, fun _ => rfl⟩
    simp only [format_github_error, kindLabel]
    rw [String.append_empty]
    congr 2

/-- C8 witness: an authentication error with message "Invalid token"
formats to "Authentication Failed: Invalid token" without raising. -/
theorem format_github_error_amended_witness :
    ((⟨.auth, "Invalid token", none, PyVal.none⟩ : GitHubErrorVal).kind =
        .rateLimit → ∃ t, (⟨.auth, "Invalid token", none,
        PyVal.none⟩ : GitHubErrorVal).reset_at = PyVal.dt t) ∧
    ∃ tail, format_github_error ⟨.auth, "Invalid token", none, PyVal.none⟩ =
      .ok (kindLabel .auth ++ ": " ++ "Invalid token" ++ tail) :=
  ⟨fun hk => absurd hk (by decide),
   (format_github_error_amended ⟨.auth, "Invalid token", none, PyVal.none⟩
     (fun hk => absurd hk (by decide))).elim
     (fun tail htail => ⟨tail, htail.1⟩)⟩

/-- C1 (amended): the mapping table of `handle_github_exception` for raw
status-bearing exceptions (not `RateLimitExceededException` instances,
which are handled by a dedicated earlier branch) whose payload normalises
without an internal error: status 401 yields an Authentication error;
status 403 whose extracted message contains "rate limit" yields a RateLimit
error provided any present, non-empty X-RateLimit-Reset header is numeric
(`int()` on a non-numeric header raises inside the mapper and the catch-all
returns the base GitHubError instead — the counterexample below); status
403 otherwise yields a Permission error; status 404 yields a NotFound
error; status 422 yields a Validation error; and any other status yields
the base GitHubError (the Unknown kind). -/
theorem github_exception_mapping_table (e : GithubExc) (hint : Option String)
    (o : Option ExcData) (hrl : e.isRateLimitExc = false)
    (hd : normalizeData e.data = .ok o) :
    (e.status = 401 → (handle_github_exception e hint).kind = .auth) ∧
    (e.status = 403 →
      PyStr.containsSub (PyStr.lower (errorMsgOf o e.strRep)) "rate limit"
        = true →
      (∀ s, headerGet e.headers "X-RateLimit-Reset" = some s →
        s.isEmpty = false → (PyStr.pyInt s).isSome = true) →
      (handle_github_exception e hint).kind = .rateLimit) ∧
    (e.status = 403 →
      PyStr.containsSub (PyStr.lower (errorMsgOf o e.strRep)) "rate limit"
        = false →
      (handle_github_exception e hint).kind = .permission) ∧
    (e.status = 404 → (handle_github_exception e hint).kind = .notFound) ∧
    (e.status = 422 → (handle_github_exception e hint).kind = .validation) ∧
    (e.status ≠ 401 → e.status ≠ 403 → e.status ≠ 404 → e.status ≠ 422 →
      (handle_github_exception e hint).kind = .base) := by
  refine ⟨?_, ?_, ?_, ?_, ?_, ?_⟩
  · intro h
    simp [handle_github_exception, handleGithubExceptionBody, hrl, hd, h]
  · intro h hmsg hhdr
    simp only [handle_github_exception, handleGithubExceptionBody, hrl, hd, h]
    cases hh : headerGet e.headers "X-RateLimit-Reset" with
    | none => simp [hmsg, hh]
    | some s =>
      cases hse : s.isEmpty with
      | true => simp [hmsg, hh, hse]
      | false =>
        cases hpi : PyStr.pyInt s with
        | none =>
          have := hhdr s hh hse
          rw [hpi] at this
          simp at this
        | some t => simp [hmsg, hh, hse, hpi]
  · intro h hmsg
    simp [handle_github_exception, handleGithubExceptionBody, hrl, hd, h, hmsg]
  · intro h
    simp [handle_github_exception, handleGithubExceptionBody, hrl, hd, h]
  · intro h
    simp [handle_github_exception, handleGithubExceptionBody, hrl, hd, h]
  · intro h1 h2 h3 h4
    simp [handle_github_exception, handleGithubExceptionBody, hrl, hd,
      beq_eq_false_iff_ne.mpr h1, beq_eq_false_iff_ne.mpr h2,
      beq_eq_false_iff_ne.mpr h3, beq_eq_false_iff_ne.mpr h4]

/-- C1 witness: a status-500 exception with no payload maps to the base
GitHubError kind. -/
theorem github_exception_mapping_table_witness :
    ((⟨500, .absent, [], "boom", false, none⟩ : GithubExc).isRateLimitExc
      = false) ∧
    normalizeData (ExcPayload.absent) = .ok none ∧
    (handle_github_exception ⟨500, .absent, [], "boom", false, none⟩
      none).kind = .base :=
  ⟨rfl, rfl,
   (github_exception_mapping_table ⟨500, .absent, [], "boom", false, none⟩
     none none rfl rfl).2.2.2.2.2
     (by decide) (by decide) (by decide) (by decide)⟩

/-- C4 counterexample: a 403 rate-limit exception with no X-RateLimit-Reset
header maps to a RateLimit-kind error whose reset_at is null, so reset_at
being non-null is not equivalent to the kind being RateLimit. -/
theorem reset_at_iff_rate_limit_counterexample :
    (handle_github_exception
      ⟨403, .dict ⟨some "API rate limit exceeded", none, []⟩, [], "err",
        false, none⟩ none).kind = .rateLimit ∧
    (handle_github_exception
      ⟨403, .dict ⟨some "API rate limit exceeded", none, []⟩, [], "err",
        false, none⟩ none).reset_at = PyVal.none :=
  ⟨by decide, by decide⟩

/-- Every successful outcome of the mapping body with a non-null reset_at
is of the RateLimit kind. -/
theorem body_reset_imp_rate_limit (e : GithubExc) (hint : Option String)
    (g : GitHubErrorVal) (hg : handleGithubExceptionBody e hint = .ok g)
    (hne : g.reset_at ≠ PyVal.none) : g.kind = .rateLimit := by
  unfold handleGithubExceptionBody at hg
  by_cases hrl : e.isRateLimitExc
  · rw [if_pos hrl] at hg
    cases hg
    rfl
  · rw [if_neg hrl] at hg
    cases hn : normalizeData e.data with
    | error ex =>
      rw [hn] at hg
      cases hg
    | ok o =>
      simp only [hn] at hg
      by_cases b401 : (e.status == 401) = true
      · rw [if_pos b401] at hg
        cases hg
        exact absurd rfl hne
      · rw [if_neg b401] at hg
        by_cases b403 : (e.status == 403) = true
        · rw [if_pos b403] at hg
          by_cases brl2 : PyStr.containsSub (PyStr.lower (errorMsgOf o e.strRep))
              "rate limit" = true
          · rw [if_pos brl2] at hg
            cases hh : headerGet e.headers "X-RateLimit-Reset" with
            | none =>
              rw [hh] at hg
              cases hg
              rfl
            | some s =>
              cases bse : s.isEmpty with
              | true =>
                simp only [hh, bse, if_true] at hg
                cases hg
                rfl
              | false =>
                simp only [hh, bse, Bool.false_eq_true, if_false] at hg
                cases hpi : PyStr.pyInt s with
                | none =>
                  simp only [hpi] at hg
                  cases hg
                | some t =>
                  simp only [hpi] at hg
                  cases hg
                  rfl
          · rw [if_neg brl2] at hg
            cases hg
            exact absurd rfl hne
        · rw [if_neg b403] at hg
          by_cases b404 : (e.status == 404) = true
          · rw [if_pos b404] at hg
            cases hg
            exact absurd rfl hne
          · rw [if_neg b404] at hg
            by_cases b422 : (e.status == 422) = true
            · rw [if_pos b422] at hg
              cases hg
              exact absurd rfl hne
            · rw [if_neg b422] at hg
              cases hg
              exact absurd rfl hne

/-- C4 (amended): reset_at is non-null only if the error kind is RateLimit
(every other kind carries no reset_at), and mapping a 403 rate-limit
exception that carries a (numeric, non-empty) reset header always yields a
RateLimit error whose reset_at is non-null (the raw header string, whose
parsed timestamp `wait_for_rate_limit_reset` accepts without raising,
waiting until at least the reset time plus the buffer); a rate-limit 403
without the header yields a RateLimit error whose reset_at is null. -/
theorem reset_at_only_if_rate_limit (e : GithubExc) (hint : Option String)
    (now buffer : Int) :
    ((handle_github_exception e hint).reset_at ≠ PyVal.none →
      (handle_github_exception e hint).kind = .rateLimit) ∧
    (∀ o s t, e.isRateLimitExc = false → normalizeData e.data = .ok o →
      e.status = 403 →
      PyStr.containsSub (PyStr.lower (errorMsgOf o e.strRep)) "rate limit"
        = true →
      headerGet e.headers "X-RateLimit-Reset" = some s → s.isEmpty = false →
      PyStr.pyInt s = some t →
      (handle_github_exception e hint).kind = .rateLimit ∧
      (handle_github_exception e hint).reset_at = PyVal.str s ∧
      t + buffer ≤ wait_for_rate_limit_reset now t buffer ∧
      now + buffer ≤ wait_for_rate_limit_reset now t buffer) := by
  constructor
  · intro hne
    unfold handle_github_exception at hne ⊢
    cases hb : handleGithubExceptionBody e hint with
    | ok g =>
      rw [hb] at hne
      exact body_reset_imp_rate_limit e hint g hb hne
    | error ex =>
      rw [hb] at hne
      exact absurd rfl hne
  · intro o s t hrl hn h403 hmsg hh hse hpi
    have hb : handleGithubExceptionBody e hint =
        .ok ⟨.rateLimit, "API rate limit exceeded. Reset at " ++ strftimeUTC t,
          o, PyVal.str s⟩ := by
      simp [handleGithubExceptionBody, hrl, hn, h403, hmsg, hh, hse, hpi]
    refine ⟨?_, ?_, ?_, ?_⟩
    · unfold handle_github_exception
      rw [hb]
    · unfold handle_github_exception
      rw [hb]
    · unfold wait_for_rate_limit_reset
      omega
    · unfold wait_for_rate_limit_reset
      omega

/-- C4 witness: a 403 rate-limit exception with reset header 1700000000
maps to a RateLimit error whose reset_at is the (non-null) header string. -/
theorem reset_at_only_if_rate_limit_witness :
    PyStr.pyInt "1700000000" = some 1700000000 ∧
    (handle_github_exception
      ⟨403, .dict ⟨some "API rate limit exceeded", none, []⟩,
        [("X-RateLimit-Reset", "1700000000")], "err", false, none⟩
      none).kind = .rateLimit ∧
    (handle_github_exception
      ⟨403, .dict ⟨some "API rate limit exceeded", none, []⟩,
        [("X-RateLimit-Reset", "1700000000")], "err", false, none⟩
      none).reset_at = PyVal.str "1700000000" :=
  ⟨by decide,
   ((reset_at_only_if_rate_limit
      ⟨403, .dict ⟨some "API rate limit exceeded", none, []⟩,
        [("X-RateLimit-Reset", "1700000000")], "err", false, none⟩
      none 0 5).2
      (some ⟨some "API rate limit exceeded", none, []⟩) "1700000000"
      1700000000 rfl rfl rfl (by decide) rfl (by decide) (by decide)).1,
   ((reset_at_only_if_rate_limit
      ⟨403, .dict ⟨some "API rate limit exceeded", none, []⟩,
        [("X-RateLimit-Reset", "1700000000")], "err", false, none⟩
      none 0 5).2
      (some ⟨some "API rate limit exceeded", none, []⟩) "1700000000"
      1700000000 rfl rfl rfl (by decide) rfl (by decide) (by decide)).2.1⟩

/-- C1 counterexample: a raw 403 exception whose message contains "rate
limit" but whose X-RateLimit-Reset header is not numeric is mapped to the
base GitHubError (via `int()` raising inside the mapper and the catch-all
returning `GitHubError(str(error), None)`), not to the RateLimit kind the
mapping table claims for every such exception. -/
theorem github_exception_mapping_table_counterexample :
    PyStr.containsSub
      (PyStr.lower (errorMsgOf
        (some ⟨some "API rate limit exceeded", none, []⟩) "err"))
      "rate limit" = true ∧
    handle_github_exception
      ⟨403, .dict ⟨some "API rate limit exceeded", none, []⟩,
        [("X-RateLimit-Reset", "oops")], "err", false, none⟩ none =
      ⟨.base, "err", none, PyVal.none⟩ ∧
    (handle_github_exception
      ⟨403, .dict ⟨some "API rate limit exceeded", none, []⟩,
        [("X-RateLimit-Reset", "oops")], "err", false, none⟩ none).kind ≠
      .rateLimit := by
  refine ⟨by decide, by decide, by decide⟩
